import Mathlib

/-!
Verification development for the gemini_caption bulk image-captioning
pipeline.  The definitions below are a shallow embedding, translated from
the Python sources under `src/gemini_caption/`:

* `danbooru_pics_model.py`  — the `DanbooruPicDoc` Pydantic model, its
  `set_status_based_on_md5` validator and `build_url`;
* `danbooru_pics.py`        — `get_pic_data_by_id`, `get_url_by_id`,
  `check_url_by_id_batch`, `_build_cache`, `check_urls_by_key`;
* `danbooru_gemini_captions.py` — `get_processed_ids`,
  `check_existing_result`, `save_caption_result` (upsert semantics);
* `gemini_api_client.py`    — `_call_gemini_sync` and its retry loop;
* `caption_promt_utils.py`  — `build_prompt` and its section helpers;
* `batch_processor.py`      — `process_single_id`, `process_batch`,
  `process_id_list`.

Mongo collections are modelled as a single total map `Nat → Option Outcome`
(the shard routing `id / 100000` is kept explicit where the source iterates
over shard collections).  Asynchronous gather over per-id tasks is modelled
as a sequential fold: every task reads and writes only its own key, so the
per-key contents of the store are the same under any interleaving.
Wall-clock durations are abstracted by a single `time` stamp in the
environment; aggregate counters of the orchestrator are not modelled.
An `Option` field of `Outcome` records whether the corresponding key is
present in the persisted Mongo document (`none` = key absent).
-/

namespace GeminiCaption

/-- Prefix test `charsPrefixMatch needle hay`: `needle` is a prefix of `hay` (on char lists). -/
def charsPrefixMatch : List Char → List Char → Bool
  | [], _ => true
  | _ :: _, [] => false
  | c :: cs, d :: ds => c = d && charsPrefixMatch cs ds

/-- Substring test `charsHasSub needle hay`: `needle` occurs as a contiguous substring of `hay`
(Python's `needle in hay`). -/
def charsHasSub (needle : List Char) : List Char → Bool
  | [] => needle.isEmpty
  | d :: ds => charsPrefixMatch needle (d :: ds) || charsHasSub needle ds

/-- Python `needle in hay` on strings. -/
def strHasSub (needle hay : String) : Bool :=
  charsHasSub needle.toList hay.toList

/-- Python `hay.endswith(needle)`. -/
def strEndsWith (needle hay : String) : Bool :=
  charsPrefixMatch needle.toList.reverse hay.toList.reverse

/-- Python `s.lower()`, character-wise (ASCII case mapping suffices for the
URLs involved). -/
def strLower (s : String) : String :=
  String.mk (s.data.map Char.toLower)

/-- Python truthiness of an `Optional[str]` value: `None` and `""` are falsy. -/
def truthyStr : Option String → Bool
  | none => false
  | some s => s ≠ ""

/-! ## Metadata store: `danbooru_pics_model.py` -/

/-- A raw `pics` document as stored in Mongo, after Pydantic has filled the
field defaults (`md5`/`file_ext`/`url` default to `""`, `status` to `404`,
tag lists to `[]`).  `none` in an `Option` field stands for a stored JSON
`null` (the `Optional[...]` annotations admit it). -/
structure RawPicDoc where
  md5 : Option String := some ""
  file_ext : Option String := some ""
  url : Option String := some ""
  status : Nat := 404
  general_tags : Option (List String) := some []
  character_tags : Option (List String) := some []
  artist_tags : Option (List String) := some []
  copyright_tags : Option (List String) := some []
  deriving Repr, DecidableEq

/-- A validated `DanbooruPicDoc` (after both `model_validator`s ran). -/
structure PicDoc where
  md5 : String
  file_ext : String
  url : String
  status : Nat
  general_tags : List String
  character_tags : List String
  artist_tags : List String
  copyright_tags : List String
  deriving Repr, DecidableEq

/-- Source `DanbooruPicDoc.build_url`: pure URL synthesis from `(md5, file_ext)`;
`None` when either part is `None` or empty. -/
def build_url (md5 file_ext : Option String) : Option String :=
  match md5, file_ext with
  | none, _ => none
  | _, none => none
  | some m, some e =>
    if m = "" ∨ e = "" then none
    else some ("https://cdn.donmai.us/original/" ++ m.take 2 ++ "/" ++
      (m.drop 2).take 2 ++ "/" ++ m ++ "." ++ e)

/-- The `set_status_based_on_md5` + `ensure_tags_are_lists` validators.
Mirrors the source line by line: `md5`/`file_ext` are defaulted from `None`
to `""`; a non-empty `md5` sets `status := 200` and `url := build_url ...`;
otherwise the `elif self.md5 == "" or self.file_ext == "gif"` branch always
fires (its first disjunct holds) and sets `status := 405`, leaving `url`
unchanged; the `elif not self.status` branch (404) is unreachable.  Finally
`if 'gif' in self.url` forces `status := 405, url := ""`.  When `url` is
`None` at that point Python raises `TypeError` inside the validator, which
surfaces as a construction failure: we return `Except.error ()`. -/
def set_status_based_on_md5 (r : RawPicDoc) : Except Unit PicDoc :=
  let md5 := r.md5.getD ""
  let ext := r.file_ext.getD ""
  let su : Nat × Option String :=
    if md5 ≠ "" then (200, build_url (some md5) (some ext))
    else (405, r.url)
  match su.2 with
  | none => Except.error ()
  | some u =>
    let (st, ur) := if strHasSub "gif" u then (405, "") else (su.1, u)
    Except.ok
      { md5 := md5, file_ext := ext, url := ur, status := st
        general_tags := r.general_tags.getD []
        character_tags := r.character_tags.getD []
        artist_tags := r.artist_tags.getD []
        copyright_tags := r.copyright_tags.getD [] }

/-- The raw document produced by `DanbooruPicDoc.from_id(id)`: every field at
its Pydantic default. -/
def from_id_raw : RawPicDoc := {}

/-- The validated document `DanbooruPicDoc.from_id(id)` evaluates to.
(Its validator run always succeeds; the fallback value of `getD` is inert.) -/
def from_id_doc : PicDoc :=
  (set_status_based_on_md5 from_id_raw).toOption.getD
    { md5 := "", file_ext := "", url := "", status := 405
      general_tags := [], character_tags := [], artist_tags := []
      copyright_tags := [] }

/-! ## Metadata store gateway: `danbooru_pics.py` -/

/-- The `pics` collection: an association list `_id ↦ raw document`
(cursor order = list order, keys distinct). -/
abbrev PicsDb := List (Nat × RawPicDoc)

/-- Source `DanbooruPics.get_pic_data_by_id` (cache disabled to its first-call
behaviour): found documents are validated; a missing document — or a
validator exception, which the surrounding `except` swallows — yields
`DanbooruPicDoc.from_id(id)`. -/
def get_pic_data_by_id (db : PicsDb) (id : Nat) : PicDoc :=
  match List.lookup id db with
  | some raw =>
    match set_status_based_on_md5 raw with
    | Except.ok d => d
    | Except.error _ => from_id_doc
  | none => from_id_doc

/-- Source `DanbooruPics.get_url_by_id`: `(doc.url, doc.status)`. -/
def get_url_by_id (db : PicsDb) (id : Nat) : String × Nat :=
  let d := get_pic_data_by_id db id
  (d.url, d.status)

/-- An entry of the URL-resolution dictionaries
(`{"url": url, "status": status}`); `url = none` is a stored `None`. -/
structure UrlInfo where
  url : Option String
  status : Nat
  deriving Repr, DecidableEq

/-- Source `DanbooruPics.check_url_by_id_batch`: a dictionary with exactly the
requested ids as keys, each mapped to `{"url": doc.url, "status": doc.status}`. -/
def check_url_by_id_batch (db : PicsDb) (ids : List Nat) : Nat → Option UrlInfo :=
  fun j =>
    if j ∈ ids then
      let d := get_pic_data_by_id db j
      some ⟨some d.url, d.status⟩
    else none

/-- Python `range(start, stop)` as a list. -/
def rangeList (start stop : Nat) : List Nat :=
  List.range' start (stop - start)

/-- The batch start offsets of `check_urls_by_key`/`process_batch`:
`range(total_batches)` mapped to `start + batch_index * batch_size`, with
`total_batches = (total + batch_size - 1) // batch_size`. -/
def batchStarts (start stop bs : Nat) : List Nat :=
  (List.range' 0 ((stop - start + bs - 1) / bs)).map (fun b => start + b * bs)

/-- Source `DanbooruPics._build_cache`: iterate the ranged cursor, validating each
document into the cache.  A validator exception aborts the loop (the `try`
wraps the whole cursor iteration), leaving the cache partially built. -/
def build_cache : List (Nat × RawPicDoc) → (Nat → Option PicDoc) → (Nat → Option PicDoc)
  | [], cache => cache
  | (i, raw) :: rest, cache =>
    match set_status_based_on_md5 raw with
    | Except.ok d => build_cache rest (fun j => if j = i then some d else cache j)
    | Except.error _ => cache

/-- Source `DanbooruPics.check_urls_by_key`: over `[key·100000, (key+1)·100000)`,
prune the instance cache to the range, rebuild it from the ranged cursor,
then assemble the result dictionary in batches of `batch_size = 10000`:
cached ids map to `(doc.url, doc.status)`, the rest to `(None, 404)`. -/
def check_urls_by_key (db : PicsDb) (prevCache : Nat → Option PicDoc) (key : Nat) :
    Nat → Option UrlInfo :=
  let start := key * 100000
  let stop := (key + 1) * 100000
  let pruned : Nat → Option PicDoc :=
    fun j => if start ≤ j ∧ j < stop then prevCache j else none
  let cache := build_cache (db.filter (fun p => start ≤ p.1 && p.1 < stop)) pruned
  let entry : Nat → UrlInfo := fun pid =>
    match cache pid with
    | some d => ⟨some d.url, d.status⟩
    | none => ⟨none, 404⟩
  (batchStarts start stop 10000).foldl
    (fun res bstart =>
      (rangeList bstart (min (bstart + 10000) stop)).foldl
        (fun r pid => fun j => if j = pid then some (entry pid) else r j) res)
    (fun _ => none)

/-! ## Caption store gateway: `danbooru_gemini_captions.py` -/

/-- A parsed caption as returned by `json_repair.loads`: either a JSON object
(top-level fields, values abstracted to their text) or any non-object value. -/
inductive Caption where
  | obj (fields : List (String × String))
  | other (raw : String)
  deriving Repr, DecidableEq

/-- Whether a parsed caption is an object containing the given key. -/
def Caption.hasKey (c : Caption) (k : String) : Bool :=
  match c with
  | .obj fields => fields.any (fun p => p.1 == k)
  | .other _ => false

/-- The five summary keys the prompt's output schema demands. -/
def captionSchemaKeys : List String :=
  ["regular_summary", "midjourney_style_summary", "short_summary",
   "creation_instructional_summary", "deviantart_commission_request"]

/-- A caption outcome document.  `Option` fields record key presence in the
persisted Mongo document (`none` = key absent); `_id` is the store key and
`created_at` is not modelled. -/
structure Outcome where
  success : Bool
  error : Option String := none
  error_type : Option String := none
  image_url : Option String := none
  prompt : Option String := none
  caption : Option Caption := none
  artist : Option (List String) := none
  character : Option (List String) := none
  tags : Option (List String) := none
  processing_time : Option Nat := none
  status_code : Option Nat := none
  deriving Repr, DecidableEq

/-- The shard-routed caption store: `id ↦ outcome document`, the document for
`id` living in collection `str(id // 100000)`. -/
abbrev Store := Nat → Option Outcome

/-- Upsert semantics of `save_caption_result`'s `update_one({"_id": id}, {"$set": result}, upsert=True)`:
keys present in the new document overwrite, absent keys keep the old value. -/
def upsertOutcome (old : Option Outcome) (nw : Outcome) : Outcome :=
  match old with
  | none => nw
  | some o =>
    { success := nw.success
      error := nw.error.orElse (fun _ => o.error)
      error_type := nw.error_type.orElse (fun _ => o.error_type)
      image_url := nw.image_url.orElse (fun _ => o.image_url)
      prompt := nw.prompt.orElse (fun _ => o.prompt)
      caption := nw.caption.orElse (fun _ => o.caption)
      artist := nw.artist.orElse (fun _ => o.artist)
      character := nw.character.orElse (fun _ => o.character)
      tags := nw.tags.orElse (fun _ => o.tags)
      processing_time := nw.processing_time.orElse (fun _ => o.processing_time)
      status_code := nw.status_code.orElse (fun _ => o.status_code) }

/-- Source `save_caption_result` as a store update. -/
def save_caption_result (st : Store) (id : Nat) (nw : Outcome) : Store :=
  fun j => if j = id then some (upsertOutcome (st id) nw) else st j

/-- The `$or` filter of `get_processed_ids`: `prompt` exists, or
`success = true`, or `status_code ∈ [200, 403, 404, 999, 998]`. -/
def processedFilter (o : Outcome) : Bool :=
  o.prompt.isSome || o.success ||
    (match o.status_code with
     | some c => [200, 403, 404, 999, 998].contains c
     | none => false)

/-- Whether the stored document for an id matches `processedFilter`
(no document matches nothing). -/
def processedAt (st : Store) (i : Nat) : Bool :=
  match st i with
  | some o => processedFilter o
  | none => false

/-- Source `DanbooruGeminiCaptions.get_processed_ids`: per shard collection
`range(start_id // 100000, end_id // 100000 + 1)`, scan the clamped id range
`[max(start_id, key·100000), min(end_id, (key+1)·100000))` for documents
matching `processedFilter`, and collect the ids. -/
def get_processed_ids (st : Store) (start_id end_id : Nat) : List Nat :=
  (rangeList (start_id / 100000) (end_id / 100000 + 1)).foldl
    (fun acc coll_key =>
      let coll_start := max start_id (coll_key * 100000)
      let coll_end := min end_id ((coll_key + 1) * 100000)
      acc ++ (rangeList coll_start coll_end).filter (processedAt st))
    []

/-- Source `DanbooruGeminiCaptions.check_existing_result`: the stored document when
it exists and `result.get("success", False)` is truthy, else `None`. -/
def check_existing_result (st : Store) (id : Nat) : Option Outcome :=
  match st id with
  | some o => if o.success then some o else none
  | none => none

/-! ## Model client: `gemini_api_client.py` -/

/-- A candidate's `finish_reason` (absent attribute = `none`). -/
inductive FinishKind where
  | prohibited
  | safety
  | otherKind
  deriving Repr, DecidableEq

/-- A response candidate. -/
structure Candidate where
  finish_reason : Option FinishKind
  deriving Repr, DecidableEq

/-- A `generate_content` response: `text = none` models a missing `text`
attribute, `some ""` an empty text; `candidates = none` a missing or falsy
`candidates` attribute. -/
structure ApiResponse where
  text : Option String
  candidates : Option (List Candidate)
  deriving Repr, DecidableEq

/-- One observed attempt of the retry loop: the transport either raises (the
three `except` clauses), returns a falsy response object, or returns a
response. -/
inductive ApiEvent where
  | raiseConn (msg : String)
  | raiseAuth (msg : String)
  | raiseOther (name msg : String)
  | noResponse
  | response (r : ApiResponse)
  deriving Repr, DecidableEq

/-- The last captured exception: Python class name and message. -/
structure ErrInfo where
  name : String
  msg : String
  deriving Repr, DecidableEq

/-- The dictionary `_call_gemini_sync` returns (fields we model;
`processing_time` and stacks abstracted away). -/
structure GeminiResult where
  success : Bool
  caption : Option Caption := none
  raw_response : Option String := none
  error : Option String := none
  error_type : Option String := none
  status_code : Option Nat := none
  deriving Repr, DecidableEq

/-- The candidate scan of the empty-text branch: a fold over `candidates`
setting the `prohibited_content` flag and `policy_violation_reason` on every
`PROHIBITED_CONTENT` / `SAFETY` finish reason (later candidates overwrite the
reason, as in the source loop). -/
def policyScan (cs : List Candidate) : Bool × String :=
  cs.foldl
    (fun acc c =>
      match c.finish_reason with
      | some .prohibited => (true, "PROHIBITED_CONTENT")
      | some .safety => (true, "SAFETY")
      | _ => acc)
    (false, "")

/-- The `hasattr(response, 'candidates') and response.candidates` guard:
scan only a present, non-empty candidate list. -/
def responsePolicy (r : ApiResponse) : Bool × String :=
  match r.candidates with
  | some cs => if cs.isEmpty then (false, "") else policyScan cs
  | none => (false, "")

/-- The return value after all retries fail (`status_code = 500`). -/
def allRetriesFailed (lastError : Option ErrInfo) : GeminiResult :=
  let e := lastError.getD
    ⟨"Exception", "所有API尝试均失败，但未捕获到具体异常。可能是API返回了无效响应或请求超时"⟩
  { success := false
    error := some ("API调用失败: " ++ e.msg)
    error_type := some e.name
    status_code := some 500 }

/-- The post-loop handling of a captured non-empty `caption` text: JSON
repair parse — success gives `status_code = 200`, a parse exception gives
`status_code = 400` with the raw text. -/
def finishWithCaption (parse : String → Option Caption) (s : String) : GeminiResult :=
  match parse s with
  | some c =>
    { success := true, caption := some c, raw_response := some s
      status_code := some 200 }
  | none =>
    { success := false, raw_response := some s
      error := some "JSON解析失败", status_code := some 400 }

/-- The retry loop of `_call_gemini_sync`, by remaining attempts (`fuel`),
current attempt index and last captured error.  Returns the result together
with the number of model requests issued.  Each loop iteration consumes one
event: exceptions and invalid/empty responses set `last_error` and continue;
an empty text whose candidates carry a prohibited-content or safety finish
reason returns `status_code = 999` immediately with no further attempt; a
non-empty text breaks out to the parse stage. -/
def call_gemini_loop (parse : String → Option Caption) (events : Nat → ApiEvent) :
    Nat → Nat → Option ErrInfo → GeminiResult × Nat
  | 0, attempt, lastError => (allRetriesFailed lastError, attempt)
  | fuel + 1, attempt, lastError =>
    match events attempt with
    | .noResponse =>
      call_gemini_loop parse events fuel (attempt + 1)
        (some ⟨"Exception", "API返回无效响应: 响应对象为None"⟩)
    | .raiseConn m =>
      call_gemini_loop parse events fuel (attempt + 1) (some ⟨"ConnectionError", m⟩)
    | .raiseAuth m =>
      call_gemini_loop parse events fuel (attempt + 1) (some ⟨"RefreshError", m⟩)
    | .raiseOther n m =>
      call_gemini_loop parse events fuel (attempt + 1) (some ⟨n, m⟩)
    | .response r =>
      match r.text with
      | none =>
        call_gemini_loop parse events fuel (attempt + 1)
          (some ⟨"Exception", "API响应对象没有text属性"⟩)
      | some s =>
        if s = "" then
          let pol := responsePolicy r
          if pol.1 then
            ({ success := false
               error := some ("内容政策违规被拦截: " ++ pol.2)
               error_type := some "ContentPolicyViolation"
               status_code := some 999 }, attempt + 1)
          else
            call_gemini_loop parse events fuel (attempt + 1)
              (some ⟨"Exception", "API响应text为空"⟩)
        else
          (finishWithCaption parse s, attempt + 1)

/-- Source `_call_gemini_sync` with `retry_attempts` attempts (the client default is
3, used by `BatchProcessor`). -/
def call_gemini_sync (retry_attempts : Nat) (parse : String → Option Caption)
    (events : Nat → ApiEvent) : GeminiResult × Nat :=
  call_gemini_loop parse events retry_attempts 0 none

/-! ## Prompt builder: `caption_promt_utils.py` -/

/-- A duck-typed tag argument of `build_prompt`: `None`, a bare string, or a
list of strings. -/
inductive TagArg where
  | noneArg
  | strArg (s : String)
  | listArg (l : List String)
  deriving Repr, DecidableEq

/-- The argument normalisation at the top of `build_prompt`: a non-list,
non-`None` value becomes `[str(value)]`; `None` becomes `[]`. -/
def TagArg.normalize : TagArg → List String
  | .noneArg => []
  | .strArg s => [s]
  | .listArg l => l

/-- The literal template texts (`EN_BASE_TEMPLATE`, …) and the language
specific f-string bodies of the section helpers, abstracted as parameters:
every theorem below holds for arbitrary template texts, so the multi-page
literals of the source are not replicated here. -/
structure PromptTexts where
  en_base : String
  zh_base : String
  en_notes : String
  zh_notes : String
  en_artist : List String → String
  zh_artist : List String → String
  en_character : List String → String
  zh_character : List String → String
  en_tags : List String → String
  zh_tags : List String → String

/-- Source `_get_base_template`: `ValueError` (= `none`) outside `{en, zh}`. -/
def get_base_template (T : PromptTexts) (language : String) : Option String :=
  if language = "en" then some T.en_base
  else if language = "zh" then some T.zh_base
  else none

/-- Source `_get_notes_section`: `ValueError` (= `none`) outside `{en, zh}`. -/
def get_notes_section (T : PromptTexts) (language : String) : Option String :=
  if language = "en" then some T.en_notes
  else if language = "zh" then some T.zh_notes
  else none

/-- Source `_get_artist_section`: the per-language f-string body. -/
def get_artist_section (T : PromptTexts) (artist_name : List String)
    (language : String) : String :=
  if language = "en" then T.en_artist artist_name else T.zh_artist artist_name

/-- Source `_get_tags_section`: body iff the tag list is truthy. -/
def get_tags_section (T : PromptTexts) (danbooru_tags : List String)
    (language : String) : String :=
  if danbooru_tags ≠ [] then
    (if language = "en" then T.en_tags danbooru_tags else T.zh_tags danbooru_tags)
  else ""

/-- Source `_get_character_section`: the name body when names are non-empty and no
reference info was supplied; else the reference info when truthy; else `""`. -/
def get_character_section (T : PromptTexts) (character_name : List String)
    (character_reference_info : Option String) (language : String) : String :=
  if character_name ≠ [] ∧ character_reference_info = none then
    (if language = "en" then T.en_character character_name
     else T.zh_character character_name)
  else
    match character_reference_info with
    | some r => if r ≠ "" then r else ""
    | none => ""

/-- Source `CaptionPromptUtils.build_prompt`: normalise the three tag arguments,
fall back to `"en"` outside `{en, zh}`, then concatenate base template,
guarded sections and notes.  `none` would model the (unreachable)
`ValueError` of the template getters. -/
def build_prompt (T : PromptTexts) (artist_name character_name danbooru_tags : TagArg)
    (language : String) (character_reference_info : Option String) : Option String :=
  let artists := artist_name.normalize
  let characters := character_name.normalize
  let tags := danbooru_tags.normalize
  let lang := if language = "en" ∨ language = "zh" then language else "en"
  match get_base_template T lang, get_notes_section T lang with
  | some base, some notes =>
    let artistSec := if artists ≠ [] then get_artist_section T artists lang else ""
    let charSec :=
      if characters ≠ [] ∨ truthyStr character_reference_info then
        get_character_section T characters character_reference_info lang
      else ""
    let tagsSec := if tags ≠ [] then get_tags_section T tags lang else ""
    some (base ++ artistSec ++ charSec ++ tagsSec ++ notes)
  | _, _ => none

/-! ## Per-item worker and batch orchestrator: `batch_processor.py` -/

/-- The result of `ImageProcessor.process_image_by_id`: bytes acquired (with
mime type and file extension) or a failure dictionary, whose `error` key may
be absent (hence `Option`). -/
inductive FetchOutcome where
  | ok (mime_type file_extension : String)
  | fail (error : Option String)
  deriving Repr, DecidableEq

/-- The worker's collaborators and ambient configuration: the pics database,
the image acquirer, the character analyzer (`None` on any analyzer error —
the worker swallows exceptions), the `json_repair` parser, the per-id stream
of model transport events, an optional thread-level crash of
`call_gemini_api`'s `asyncio.to_thread` wrapper, the prompt template texts,
the configured language, and an abstract wall-clock stamp used for every
`processing_time` the worker records. -/
structure WorkerEnv where
  pics : PicsDb
  fetch : Nat → FetchOutcome
  tree : Nat → Option String
  parse : String → Option Caption
  events : Nat → Nat → ApiEvent
  threadCrash : Nat → Option ErrInfo
  texts : PromptTexts
  language : String
  time : Nat

/-- Source `GeminiApiClient.call_gemini_api`: `_call_gemini_sync` on a worker thread
(retry default 3), with the wrapper converting a thread-level exception into
a `status_code = 500` failure dictionary. -/
def call_gemini_api (env : WorkerEnv) (dan_id : Nat) : GeminiResult :=
  match env.threadCrash dan_id with
  | some e =>
    { success := false, error := some ("异步线程执行异常: " ++ e.msg)
      error_type := some e.name, status_code := some 500 }
  | none => (call_gemini_sync 3 env.parse (env.events dan_id)).1

/-- Source `BatchProcessor.process_single_id` (integer id), returning the updated
store and the outcome document this call persisted, if any.  Follows the
source branch by branch: existing-result check (unless skipped), URL
resolution (custom URL if truthy, else `get_url_by_id`, failing on a
non-200 status), the GIF gate, image acquisition (note: its failure
outcome sets no `status_code` key), context assembly, prompt build, model
call, then the success or failure upsert.  `build_prompt`'s `ValueError`
branch is unreachable (`build_prompt_isSome` below), so `getD ""` is inert. -/
def process_single_id (env : WorkerEnv) (st : Store) (dan_id : Nat)
    (custom_url : Option String) (skip_existing_check : Bool) :
    Store × Option Outcome :=
  if ¬skip_existing_check ∧ (check_existing_result st dan_id).isSome then
    (st, none)
  else
    if truthyStr custom_url = false ∧ (get_url_by_id env.pics dan_id).2 ≠ 200 then
      let us := get_url_by_id env.pics dan_id
      let eo : Outcome :=
        { success := false
          error := some ("无法获取URL，状态码: " ++ toString us.2)
          processing_time := some env.time
          status_code := some us.2 }
      (save_caption_result st dan_id eo, some eo)
    else
      let url :=
        if truthyStr custom_url then custom_url.getD ""
        else (get_url_by_id env.pics dan_id).1
      if strEndsWith ".gif" (strLower url) || strHasSub ".gif" (strLower url) then
        let eo : Outcome :=
          { success := false, error := some "GIF文件不处理"
            image_url := some url, processing_time := some env.time
            status_code := some 405 }
        (save_caption_result st dan_id eo, some eo)
      else
        match env.fetch dan_id with
        | FetchOutcome.fail err =>
          let eo : Outcome :=
            { success := false, error := some (err.getD "图片处理失败")
              image_url := some url, processing_time := some env.time }
          (save_caption_result st dan_id eo, some eo)
        | FetchOutcome.ok _mime _ext =>
          let pic := get_pic_data_by_id env.pics dan_id
          let artist_name := pic.artist_tags
          let character_name := pic.character_tags
          let danbooru_tags := pic.general_tags
          let character_reference_info := env.tree dan_id
          let prompt := (build_prompt env.texts (TagArg.listArg artist_name)
            (TagArg.listArg character_name) (TagArg.listArg danbooru_tags)
            env.language character_reference_info).getD ""
          let api := call_gemini_api env dan_id
          if api.success then
            let res : Outcome :=
              { success := true, image_url := some url, prompt := some prompt
                caption := api.caption, artist := some artist_name
                character := some character_name, tags := some danbooru_tags
                processing_time := some env.time
                status_code := some (api.status_code.getD 200) }
            (save_caption_result st dan_id res, some res)
          else
            let eo : Outcome :=
              { success := false, error := some (api.error.getD "API调用失败")
                image_url := some url, processing_time := some env.time
                status_code := some (api.status_code.getD 500) }
            (save_caption_result st dan_id eo, some eo)

/-- Phase 1 of `process_batch`: iterate the 10,000-id sub-batches, filter out
processed ids, query `check_url_by_id_batch` per non-empty sub-batch and
collect `(id, url)` pairs with `status == 200` and a truthy URL.  The second
component models the Python variable `url_batch_result`, which after the
loop holds only the key set of the *last* non-empty sub-batch (`none` if the
loop never queried). -/
def batchPhase1Step (env : WorkerEnv) (processed : List Nat) (end_id : Nat)
    (stt : List (Nat × Option String) × Option (List Nat)) (bstart : Nat) :
    List (Nat × Option String) × Option (List Nat) :=
  let ids := rangeList bstart (min (bstart + 10000) end_id)
  let id_batch := ids.filter (fun i => !(processed.contains i))
  if id_batch.isEmpty then stt
  else
    let ubr := check_url_by_id_batch env.pics id_batch
    let pairs := id_batch.filterMap (fun i =>
      match ubr i with
      | some d =>
        if d.status == 200 && truthyStr d.url then some (i, d.url) else none
      | none => none)
    (stt.1 ++ pairs, some id_batch)

def batchPhase1 (env : WorkerEnv) (processed : List Nat) (start_id end_id : Nat) :
    List (Nat × Option String) × Option (List Nat) :=
  (batchStarts start_id end_id 10000).foldl (batchPhase1Step env processed end_id)
    ([], none)

/-- The guard of the bulk no-URL recording loop: not already processed, not
queued for a worker, present in (what is left of) `url_batch_result`, and
with a non-200 status or falsy URL. -/
def noUrlCond (env : WorkerEnv) (ubrKeys : Option (List Nat))
    (processed toProcIds : List Nat) (i : Nat) : Bool :=
  !(processed.contains i) && !(toProcIds.contains i) &&
    (match ubrKeys with
     | some keys =>
       match check_url_by_id_batch env.pics keys i with
       | some d => !(d.status == 200 && truthyStr d.url)
       | none => false
     | none => false)

/-- The bulk-recorded outcome for a no-URL id:
`{"_id": id, "success": False, "error": "无法获取URL，状态码: <s>",
"processing_time": 0, "status_code": s}` with `s = data.get("status", 404)`. -/
def noUrlOutcomeFor (env : WorkerEnv) (ubrKeys : Option (List Nat)) (i : Nat) :
    Outcome :=
  let stc :=
    match ubrKeys with
    | some keys =>
      match check_url_by_id_batch env.pics keys i with
      | some d => d.status
      | none => 404
    | none => 404
  { success := false, error := some ("无法获取URL，状态码: " ++ toString stc)
    processing_time := some 0, status_code := some stc }

/-- The bulk no-URL recording loop: upsert the guarded outcome for every
candidate id. -/
def batchPhase2 (cands : List Nat) (cond : Nat → Bool) (out : Nat → Outcome)
    (st : Store) : Store :=
  cands.foldl (fun s i => if cond i then save_caption_result s i (out i) else s) st

/-- The fan-out over `ids_to_process`: one `process_single_id` per pair
(with its pre-resolved URL and `skip_existing_check = False`).  Each worker
touches only its own key, so the concurrent gather is modelled as a fold. -/
def workerFold (env : WorkerEnv) (pairs : List (Nat × Option String)) (st : Store) :
    Store :=
  pairs.foldl (fun s p => (process_single_id env s p.1 p.2 false).1) st

/-- Source `BatchProcessor.process_batch` (= the spec's `runRange`), final store:
dedup pre-scan, sub-batched URL pre-scan, bulk no-URL recording over the
whole range (reading the leftover `url_batch_result`), then the worker
fan-out.  Aggregate counters are not modelled. -/
def process_batch (env : WorkerEnv) (st : Store) (start_id end_id : Nat) : Store :=
  let processed := get_processed_ids st start_id end_id
  let ph1 := batchPhase1 env processed start_id end_id
  let toProcIds := ph1.1.map Prod.fst
  let st2 := batchPhase2 (rangeList start_id end_id)
    (noUrlCond env ph1.2 processed toProcIds) (noUrlOutcomeFor env ph1.2) st
  workerFold env ph1.1 st2

/-- The observable pieces of a `process_id_list` run: the range the
pre-scan was performed over (if any), the dispatched `(id, url)` work list,
and the final store. -/
structure IdListRun where
  prescan : Option (Nat × Nat)
  work : List (Nat × Option String)
  store : Store

/-- Source `BatchProcessor.process_id_list` (integer ids): `min`/`max` default to 0
on an empty list; the processed pre-scan over `[min, max + 1)` runs only
under `max_id > min_id`; then one `check_url_by_id_batch` over the list, the
work-set filter, the bulk no-URL recording over the list, and the fan-out. -/
def process_id_list (env : WorkerEnv) (st : Store) (id_list : List Nat) : IdListRun :=
  if id_list.isEmpty then ⟨none, [], st⟩
  else
    let min_id := id_list.min?.getD 0
    let max_id := id_list.max?.getD 0
    let pre : Option (Nat × Nat) × List Nat :=
      if max_id > min_id then
        (some (min_id, max_id + 1), get_processed_ids st min_id (max_id + 1))
      else (none, [])
    let processed := pre.2
    let ubr := check_url_by_id_batch env.pics id_list
    let pairs := id_list.filterMap (fun i =>
      match ubr i with
      | some d =>
        if !(processed.contains i) && (d.status == 200) && truthyStr d.url then
          some (i, d.url)
        else none
      | none => none)
    let toProcIds := pairs.map Prod.fst
    let cond : Nat → Bool := fun i =>
      !(processed.contains i) && !(toProcIds.contains i) &&
        (match ubr i with
         | some d => !(d.status == 200 && truthyStr d.url)
         | none => false)
    let out : Nat → Outcome := fun i =>
      let stc := match ubr i with
        | some d => d.status
        | none => 404
      { success := false, error := some ("无法获取URL，状态码: " ++ toString stc)
        processing_time := some 0, status_code := some stc }
    let st2 := batchPhase2 id_list cond out st
    ⟨pre.1, pairs, workerFold env pairs st2⟩

/-! ## Observation predicates and concrete test data -/

/-- An attempt event on which the retry loop continues to the next attempt:
any exception, a falsy response, a response without `text`, or an empty text
without a prohibited-content/safety candidate. -/
def attemptContinues (e : ApiEvent) : Bool :=
  match e with
  | .response r =>
    match r.text with
    | none => true
    | some s => s = "" && !(responsePolicy r).1
  | _ => true

/-- An attempt event that is a content-policy terminal: a response whose
text is empty and whose candidate scan raises the prohibited flag. -/
def policyTerminal (e : ApiEvent) : Bool :=
  match e with
  | .response r =>
    (match r.text with
     | some s => decide (s = "")
     | none => false) && (responsePolicy r).1
  | _ => false

/-- The `policy_violation_reason` a terminal event reports. -/
def policyReason (e : ApiEvent) : String :=
  match e with
  | .response r => (responsePolicy r).2
  | _ => ""

/-- Modelled from the spec: the processed predicate as §4.2 words it —
`success = true` OR `prompt` present OR
`status_code ∈ {200, 403, 404, 405, 998, 999}` (405 included).  Reference
definition for the refinement comparison of claim C2; the source predicate
is `processedFilter`. -/
def specProcessedPred (o : Outcome) : Bool :=
  o.success || o.prompt.isSome ||
    (match o.status_code with
     | some c => [200, 403, 404, 405, 998, 999].contains c
     | none => false)

/-- Placeholder template texts for concrete runs (the theorems about
`build_prompt` quantify over arbitrary `PromptTexts`). -/
def trivialTexts : PromptTexts :=
  { en_base := "EN_BASE", zh_base := "ZH_BASE"
    en_notes := "EN_NOTES", zh_notes := "ZH_NOTES"
    en_artist := fun _ => "EN_ARTIST", zh_artist := fun _ => "ZH_ARTIST"
    en_character := fun _ => "EN_CHARACTER", zh_character := fun _ => "ZH_CHARACTER"
    en_tags := fun _ => "EN_TAGS", zh_tags := fun _ => "ZH_TAGS" }

/-- An empty caption store. -/
def emptyStore : Store := fun _ => none

/-- A worker environment over an empty pics collection whose image fetches
fail and whose model transport never responds. -/
def noPicsEnv : WorkerEnv :=
  { pics := []
    fetch := fun _ => FetchOutcome.fail none
    tree := fun _ => none
    parse := fun _ => none
    events := fun _ _ => ApiEvent.noResponse
    threadCrash := fun _ => none
    texts := trivialTexts
    language := "zh"
    time := 0 }

/-- Environment whose image acquisition fails with an explicit error
(claim C4's fetch-failure scenario). -/
def fetchFailEnv : WorkerEnv :=
  { noPicsEnv with fetch := fun _ => FetchOutcome.fail (some "无法下载图片") }

/-- Environment whose model call succeeds at the first attempt with a text
that repairs to a JSON object having a single key `foo` (claim C5's
missing-schema scenario). -/
def looseParseEnv : WorkerEnv :=
  { noPicsEnv with
    fetch := fun _ => FetchOutcome.ok "image/jpeg" "jpg"
    events := fun _ _ => ApiEvent.response ⟨some "x", none⟩
    parse := fun s => some (Caption.obj [("foo", s)]) }

/-- The outcome the worker persists in the `looseParseEnv` run of claim C5:
a 200 success whose caption is the schema-less object `{"foo": "x"}`. -/
def looseOutcome : Outcome :=
  { success := true, image_url := some "https://x.com/a.jpg"
    prompt := some "ZH_BASEZH_NOTES"
    caption := some (Caption.obj [("foo", "x")])
    artist := some [], character := some [], tags := some []
    processing_time := some 0, status_code := some 200 }

/-- A stored successful outcome (claim C7's scenario). -/
def successOutcome : Outcome :=
  { success := true, caption := some (Caption.obj [("regular_summary", "ok")])
    status_code := some 200, processing_time := some 1 }

/-- A store holding `successOutcome` at id 3. -/
def succStore : Store := fun j => if j = 3 then some successOutcome else none

/-- A stored GIF-gate outcome: `status_code = 405`, no prompt, no success
(claim C2's scenario). -/
def gifOutcome : Outcome :=
  { success := false, error := some "GIF文件不处理", processing_time := some 3
    status_code := some 405 }

/-- A store holding `gifOutcome` at id 5. -/
def store405 : Store := fun j => if j = 5 then some gifOutcome else none

/-- An event stream whose first response is a content-policy block
(empty text, `PROHIBITED_CONTENT` finish reason). -/
def policyEvents : Nat → ApiEvent :=
  fun _ => ApiEvent.response ⟨some "", some [⟨some FinishKind.prohibited⟩]⟩

/-! ## General lemmas -/

theorem mem_rangeList {i s e : Nat} : i ∈ rangeList s e ↔ s ≤ i ∧ i < e := by
  simp only [rangeList, List.mem_range'_1]
  omega

theorem rangeList_nodup (s e : Nat) : (rangeList s e).Nodup :=
  List.nodup_range' s (e - s)

theorem foldl_append_eq_flatMap (f : Nat → List Nat) (l : List Nat) (init : List Nat) :
    l.foldl (fun acc k => acc ++ f k) init = init ++ l.flatMap f := by
  induction l generalizing init with
  | nil => simp
  | cons a t ih => simp [ih, List.append_assoc]

/-- Membership in the sharded processed pre-scan: the per-collection clamped
scans cover the requested range exactly once. -/
theorem mem_get_processed_ids {st : Store} {s e i : Nat} :
    i ∈ get_processed_ids st s e ↔ s ≤ i ∧ i < e ∧ processedAt st i = true := by
  unfold get_processed_ids
  rw [foldl_append_eq_flatMap]
  simp only [List.nil_append, List.mem_flatMap, List.mem_filter, mem_rangeList]
  constructor
  · rintro ⟨ck, hck, ⟨hi1, hi2⟩, hp⟩
    refine ⟨?_, ?_, hp⟩ <;> omega
  · rintro ⟨h1, h2, hp⟩
    refine ⟨i / 100000, ⟨?_, ?_⟩, ⟨?_, ?_⟩, hp⟩ <;> omega

theorem writeFold_apply {α : Type} (f : Nat → α) (l : List Nat) (r0 : Nat → Option α)
    (j : Nat) :
    l.foldl (fun r pid => fun x => if x = pid then some (f pid) else r x) r0 j =
      if j ∈ l then some (f j) else r0 j := by
  induction l generalizing r0 with
  | nil => simp
  | cons a t ih =>
    simp only [List.foldl_cons]
    rw [ih]
    by_cases hjt : j ∈ t
    · simp [hjt]
    · by_cases hja : j = a
      · subst hja
        simp [hjt]
      · simp [hjt, hja]

theorem batchedWrite_apply {α : Type} (f : Nat → α) (starts : List Nat)
    (chunk : Nat → List Nat) (r0 : Nat → Option α) (j : Nat) :
    starts.foldl
      (fun res b => (chunk b).foldl
        (fun r pid => fun x => if x = pid then some (f pid) else r x) res) r0 j =
      if ∃ b ∈ starts, j ∈ chunk b then some (f j) else r0 j := by
  induction starts generalizing r0 with
  | nil => simp
  | cons a t ih =>
    simp only [List.foldl_cons]
    rw [ih, writeFold_apply]
    by_cases h1 : ∃ b ∈ t, j ∈ chunk b
    · simp [h1]
    · by_cases h2 : j ∈ chunk a
      · simp [h1, h2]
      · simp [h1, h2]

theorem save_caption_result_same (st : Store) (id : Nat) (nw : Outcome) :
    save_caption_result st id nw id = some (upsertOutcome (st id) nw) := by
  simp [save_caption_result]

theorem save_caption_result_other {st : Store} {id j : Nat} (h : j ≠ id) (nw : Outcome) :
    save_caption_result st id nw j = st j := by
  simp [save_caption_result, h]

/-- Pointwise description of the bulk no-URL recording loop (over a
duplicate-free candidate list). -/
theorem batchPhase2_apply (cands : List Nat) (cond : Nat → Bool) (out : Nat → Outcome)
    (st : Store) (j : Nat) (hn : cands.Nodup) :
    batchPhase2 cands cond out st j =
      if j ∈ cands ∧ cond j = true then some (upsertOutcome (st j) (out j)) else st j := by
  induction cands generalizing st with
  | nil => simp [batchPhase2]
  | cons a t ih =>
    obtain ⟨ha, hn'⟩ := List.nodup_cons.mp hn
    show batchPhase2 t cond out
        (if cond a = true then save_caption_result st a (out a) else st) j = _
    rw [ih _ hn']
    by_cases hja : j = a
    · subst hja
      simp only [ha, false_and, if_false, List.mem_cons, true_or, true_and]
      by_cases hc : cond j = true
      · simp [hc, save_caption_result]
      · simp [hc]
    · have hst : (if cond a = true then save_caption_result st a (out a) else st) j = st j := by
        by_cases hc : cond a = true <;> simp [hc, save_caption_result_other (hja)]
      rw [hst]
      simp [List.mem_cons, hja]

/-- A worker run can change the store only at its own id. -/
theorem process_single_id_other (env : WorkerEnv) (st : Store) (dan_id : Nat)
    (cu : Option String) (sk : Bool) {j : Nat} (hj : j ≠ dan_id) :
    (process_single_id env st dan_id cu sk).1 j = st j := by
  simp only [process_single_id]
  repeat' split
  all_goals simp [save_caption_result, hj]

/-- With `skip_existing_check = False`, a stored successful outcome makes the
worker return before any write. -/
theorem process_single_id_skip (env : WorkerEnv) (st : Store) (dan_id : Nat)
    (cu : Option String) {o : Outcome} (ho : st dan_id = some o)
    (hs : o.success = true) :
    process_single_id env st dan_id cu false = (st, none) := by
  simp only [process_single_id]
  rw [if_pos]
  refine ⟨by simp, ?_⟩
  simp [check_existing_result, ho, hs]

/-- The worker fan-out never overwrites a stored successful outcome. -/
theorem workerFold_preserve_success (env : WorkerEnv)
    (pairs : List (Nat × Option String)) {st : Store} {j : Nat} {o : Outcome}
    (ho : st j = some o) (hs : o.success = true) :
    workerFold env pairs st j = some o := by
  induction pairs generalizing st with
  | nil => simpa [workerFold]
  | cons p t ih =>
    show workerFold env t ((process_single_id env st p.1 p.2 false).1) j = some o
    apply ih
    by_cases hpj : j = p.1
    · subst hpj
      rw [process_single_id_skip env st p.1 p.2 ho hs]
      exact ho
    · rw [process_single_id_other env st p.1 p.2 false hpj]
      exact ho

/-- Status discipline of the retry loop: a successful result carries
`status_code = 200` and a parsed caption; a failed result never carries a
status that defaults to 200. -/
theorem call_gemini_loop_status (parse : String → Option Caption)
    (events : Nat → ApiEvent) (fuel a : Nat) (le : Option ErrInfo) :
    ((call_gemini_loop parse events fuel a le).1.success = true →
      (call_gemini_loop parse events fuel a le).1.status_code = some 200 ∧
      (call_gemini_loop parse events fuel a le).1.caption.isSome = true) ∧
    ((call_gemini_loop parse events fuel a le).1.success = false →
      (call_gemini_loop parse events fuel a le).1.status_code.getD 500 ≠ 200) := by
  induction fuel generalizing a le with
  | zero => simp [call_gemini_loop, allRetriesFailed]
  | succ n ih =>
    simp only [call_gemini_loop]
    cases hev : events a with
    | raiseConn m => exact ih (a + 1) _
    | raiseAuth m => exact ih (a + 1) _
    | raiseOther nm m => exact ih (a + 1) _
    | noResponse => exact ih (a + 1) _
    | response r =>
      dsimp only
      cases ht : r.text with
      | none => exact ih (a + 1) _
      | some s =>
        dsimp only
        by_cases hs : s = ""
        · simp only [hs, if_pos rfl]
          by_cases hp : (responsePolicy r).1 = true
          · simp [hp]
          · simp only [hp, Bool.false_eq_true, if_false]
            exact ih (a + 1) _
        · simp only [if_neg hs, finishWithCaption]
          cases hpar : parse s with
          | some c => simp
          | none => simp

/-- Status discipline of `call_gemini_api` (thread-crash wrapper included). -/
theorem call_gemini_api_status (env : WorkerEnv) (dan_id : Nat) :
    ((call_gemini_api env dan_id).success = true →
      (call_gemini_api env dan_id).status_code = some 200 ∧
      (call_gemini_api env dan_id).caption.isSome = true) ∧
    ((call_gemini_api env dan_id).success = false →
      (call_gemini_api env dan_id).status_code.getD 500 ≠ 200) := by
  unfold call_gemini_api
  cases env.threadCrash dan_id with
  | some e => simp
  | none => exact call_gemini_loop_status env.parse (env.events dan_id) 3 0 none

/-- Across a whole batch run, an id whose stored outcome is successful keeps
exactly that stored outcome. -/
theorem process_batch_preserve_success (env : WorkerEnv) {st : Store}
    (s e : Nat) {i : Nat} {o : Outcome} (ho : st i = some o)
    (hs : o.success = true) :
    process_batch env st s e i = some o := by
  unfold process_batch
  apply workerFold_preserve_success _ _ _ hs
  rw [batchPhase2_apply _ _ _ _ _ (rangeList_nodup s e)]
  by_cases hi : i ∈ rangeList s e
  · have hproc : i ∈ get_processed_ids st s e := by
      rw [mem_get_processed_ids]
      have hb := mem_rangeList.mp hi
      exact ⟨hb.1, hb.2, by simp [processedAt, ho, processedFilter, hs]⟩
    have hcont : (get_processed_ids st s e).contains i = true :=
      List.elem_eq_true_of_mem hproc
    have hfalse : ¬(i ∈ rangeList s e ∧
        noUrlCond env (batchPhase1 env (get_processed_ids st s e) s e).2
          (get_processed_ids st s e)
          ((batchPhase1 env (get_processed_ids st s e) s e).1.map Prod.fst) i = true) := by
      rintro ⟨_, hcond⟩
      simp only [noUrlCond, Bool.and_eq_true, Bool.not_eq_true'] at hcond
      rw [hcond.1.1] at hcont
      simp at hcont
    rw [if_neg hfalse]
    exact ho
  · rw [if_neg (fun h => hi h.1)]
    exact ho

/-! ## Claim theorems -/

/-- C3 (code bug evidence): per-row URL resolution of an *absent* metadata
record yields status 405, not the 404 the claim (and the model's own
docstrings, `from_id`: "status为404") state: with an empty pics collection,
`get_url_by_id` falls back to `DanbooruPicDoc.from_id`, whose validator
takes the `md5 == ""` branch and sets `status = 405`. -/
theorem c3_absent_record_resolves_405 :
    get_url_by_id [] 1 = ("", 405) ∧ from_id_doc.status = 405 := by
  decide

/-- C2 counterexample: a stored outcome with `status_code = 405` (no prompt,
`success = false`) satisfies the spec's processed predicate, yet the
pre-scan `get_processed_ids` does not report it — its `$in` list is
`[200, 403, 404, 999, 998]`, omitting 405 — so the id would be reprocessed. -/
theorem c2_status405_not_reported :
    specProcessedPred gifOutcome = true ∧ 5 ∉ get_processed_ids store405 0 10 := by
  decide

/-- C2 (amended): the caption-store pre-scan returns exactly the identifiers
in `[start, end)` whose stored outcome has `success = true`, or a `prompt`
field, or `status_code ∈ {200, 403, 404, 998, 999}` — 405 is *not* in the
set, so a 405 outcome alone does not count as processed. -/
theorem c2_processed_predicate_amended (st : Store) (s e i : Nat) :
    i ∈ get_processed_ids st s e ↔
      s ≤ i ∧ i < e ∧ ∃ o, st i = some o ∧
        (o.success = true ∨ o.prompt.isSome = true ∨
          ∃ c, o.status_code = some c ∧
            (c = 200 ∨ c = 403 ∨ c = 404 ∨ c = 998 ∨ c = 999)) := by
  rw [mem_get_processed_ids]
  have hpred : processedAt st i = true ↔
      (∃ o, st i = some o ∧
        (o.success = true ∨ o.prompt.isSome = true ∨
          ∃ c, o.status_code = some c ∧
            (c = 200 ∨ c = 403 ∨ c = 404 ∨ c = 998 ∨ c = 999))) := by
    unfold processedAt processedFilter
    cases hsi : st i with
    | none => simp
    | some o =>
      cases hsc : o.status_code with
      | none =>
        simp [hsc]
        tauto
      | some c =>
        simp [hsc, List.contains]
        tauto
  rw [hpred]

/-- C4 counterexample: when image acquisition fails, the persisted outcome
carries `_id`, `success = false`, the error, the URL and `processing_time`,
but **no** `status_code` key — in particular not the claimed 500. -/
theorem c4_no_status_code_on_fetch_failure :
    (process_single_id fetchFailEnv emptyStore 7 (some "https://x.com/a.jpg") false).2 =
      some { success := false, error := some "无法下载图片"
             image_url := some "https://x.com/a.jpg", processing_time := some 0 } ∧
    ((process_single_id fetchFailEnv emptyStore 7
        (some "https://x.com/a.jpg") false).2.bind Outcome.status_code) = none := by
  decide

/-- C4 (amended): whenever the worker's image acquisition fails (for an id
with no prior successful result, a truthy non-GIF URL), the worker persists,
before returning, an outcome with `_id`, `success = false`, the acquisition
error (defaulting to "图片处理失败"), `image_url` and `processing_time` —
and with no `status_code` field (the source omits the 500 here). -/
theorem c4_fetch_failure_outcome (env : WorkerEnv) (st : Store) (dan_id : Nat)
    (u : String) (err : Option String)
    (hex : check_existing_result st dan_id = none)
    (hu : u ≠ "")
    (hgif : (strEndsWith ".gif" (strLower u) || strHasSub ".gif" (strLower u)) = false)
    (hf : env.fetch dan_id = FetchOutcome.fail err) :
    process_single_id env st dan_id (some u) false =
      (save_caption_result st dan_id
        { success := false, error := some (err.getD "图片处理失败")
          image_url := some u, processing_time := some env.time },
       some { success := false, error := some (err.getD "图片处理失败")
              image_url := some u, processing_time := some env.time }) := by
  simp only [process_single_id, truthyStr, hex, hf]
  simp [hu, hgif]

/-- C4 witness: `c4_fetch_failure_outcome` at the concrete fetch-failure
environment. -/
theorem c4_fetch_failure_outcome_witness :
    (check_existing_result emptyStore 7 = none ∧
      fetchFailEnv.fetch 7 = FetchOutcome.fail (some "无法下载图片")) ∧
    process_single_id fetchFailEnv emptyStore 7 (some "https://x.com/a.jpg") false =
      (save_caption_result emptyStore 7
        { success := false, error := some ((some "无法下载图片").getD "图片处理失败")
          image_url := some "https://x.com/a.jpg", processing_time := some 0 },
       some { success := false, error := some ((some "无法下载图片").getD "图片处理失败")
              image_url := some "https://x.com/a.jpg", processing_time := some 0 }) :=
  ⟨⟨by decide, by decide⟩,
    c4_fetch_failure_outcome fetchFailEnv emptyStore 7 "https://x.com/a.jpg"
      (some "无法下载图片") (by decide) (by decide) (by decide) (by decide)⟩

/-- C5 counterexample: the worker persists a `status_code = 200`,
`success = true` outcome whose caption does *not* contain the five schema
keys — no schema validation exists between `json_repair` and the upsert
(here the model text repairs to `{"foo": "x"}`). -/
theorem c5_stored_caption_without_schema_keys :
    (process_single_id looseParseEnv emptyStore 9
        (some "https://x.com/a.jpg") false).2.map
      (fun o => (o.status_code, o.success,
        o.caption.map (fun c => captionSchemaKeys.all (fun k => c.hasKey k)))) =
      some (some 200, true, some false) := by
  decide

/-- C5 (amended): for every outcome the per-item worker persists,
`status_code = 200` holds iff `success = true` and a caption is present;
the five-schema-keys condition is dropped (the worker stores whatever
`json_repair` returned, unvalidated). -/
theorem c5_status200_iff_success_and_caption (env : WorkerEnv) (st : Store)
    (dan_id : Nat) (cu : Option String) (sk : Bool) (o : Outcome)
    (h : (process_single_id env st dan_id cu sk).2 = some o) :
    o.status_code = some 200 ↔ (o.success = true ∧ o.caption.isSome = true) := by
  have hapi := call_gemini_api_status env dan_id
  simp only [process_single_id] at h
  repeat' split at h
  all_goals first
    | (exact Option.noConfusion h)
    | (injection h with h; subst h; dsimp only; simp_all)

/-- C5 witness: the amended equivalence applied at the concrete
schema-less-caption run. -/
theorem c5_status200_iff_witness :
    ((process_single_id looseParseEnv emptyStore 9
        (some "https://x.com/a.jpg") false).2 = some looseOutcome) ∧
    (looseOutcome.status_code = some 200 ↔
      (looseOutcome.success = true ∧ looseOutcome.caption.isSome = true)) :=
  ⟨by decide,
    c5_status200_iff_success_and_caption looseParseEnv emptyStore 9
      (some "https://x.com/a.jpg") false looseOutcome (by decide)⟩

/-- Reaching attempt `k` through continuing events, the loop returns the
content-policy terminal of event `k` and consumes exactly `k + 1` requests. -/
theorem call_gemini_loop_policy (parse : String → Option Caption)
    (events : Nat → ApiEvent) (k : Nat) :
    ∀ (fuel a : Nat) (le : Option ErrInfo), k < fuel →
      policyTerminal (events (a + k)) = true →
      (∀ j, j < k → attemptContinues (events (a + j)) = true) →
      call_gemini_loop parse events fuel a le =
        ({ success := false
           error := some ("内容政策违规被拦截: " ++ policyReason (events (a + k)))
           error_type := some "ContentPolicyViolation", status_code := some 999 },
         a + k + 1) := by
  induction k with
  | zero =>
    intro fuel a le hk hterm _
    obtain ⟨f, rfl⟩ : ∃ f, fuel = f + 1 := ⟨fuel - 1, by omega⟩
    rw [Nat.add_zero] at hterm
    simp only [call_gemini_loop, Nat.add_zero]
    cases hev : events a with
    | raiseConn m => rw [hev] at hterm; simp [policyTerminal] at hterm
    | raiseAuth m => rw [hev] at hterm; simp [policyTerminal] at hterm
    | raiseOther nm m => rw [hev] at hterm; simp [policyTerminal] at hterm
    | noResponse => rw [hev] at hterm; simp [policyTerminal] at hterm
    | response r =>
      rw [hev] at hterm
      simp only [policyTerminal, Bool.and_eq_true] at hterm
      obtain ⟨ht, hp⟩ := hterm
      dsimp only
      cases htx : r.text with
      | none =>
        rw [htx] at ht
        exact Bool.noConfusion ht
      | some s =>
        rw [htx] at ht
        have hs : s = "" := of_decide_eq_true ht
        subst hs
        dsimp only
        rw [if_pos rfl, if_pos hp]
        simp [policyReason]
  | succ k ih =>
    intro fuel a le hk hterm hcont
    obtain ⟨f, rfl⟩ : ∃ f, fuel = f + 1 := ⟨fuel - 1, by omega⟩
    have haeq : a + 1 + k = a + (k + 1) := by omega
    have hterm' : policyTerminal (events (a + 1 + k)) = true := by
      rw [haeq]; exact hterm
    have hcont' : ∀ j, j < k → attemptContinues (events (a + 1 + j)) = true := by
      intro j hj
      have hj1 := hcont (j + 1) (by omega)
      rw [show a + (j + 1) = a + 1 + j by omega] at hj1
      exact hj1
    have hc0 := hcont 0 (by omega)
    rw [Nat.add_zero] at hc0
    simp only [call_gemini_loop]
    cases hev : events a with
    | raiseConn m =>
      dsimp only
      rw [ih f (a + 1) _ (by omega) hterm' hcont', haeq]
    | raiseAuth m =>
      dsimp only
      rw [ih f (a + 1) _ (by omega) hterm' hcont', haeq]
    | raiseOther nm m =>
      dsimp only
      rw [ih f (a + 1) _ (by omega) hterm' hcont', haeq]
    | noResponse =>
      dsimp only
      rw [ih f (a + 1) _ (by omega) hterm' hcont', haeq]
    | response r =>
      rw [hev] at hc0
      simp only [attemptContinues] at hc0
      dsimp only
      cases htx : r.text with
      | none =>
        dsimp only
        rw [ih f (a + 1) _ (by omega) hterm' hcont', haeq]
      | some s =>
        rw [htx] at hc0
        simp only [Bool.and_eq_true, Bool.not_eq_true', decide_eq_true_eq] at hc0
        obtain ⟨hs, hp⟩ := hc0
        subst hs
        dsimp only
        rw [if_pos rfl, hp]
        simp only [Bool.false_eq_true, if_false]
        rw [ih f (a + 1) _ (by omega) hterm' hcont', haeq]

/-- C6: whenever the retry loop of `_call_gemini_sync` observes a response
with empty text and a candidate finishing for prohibited-content or safety,
the invocation issues no further model request (exactly `k + 1` requests are
consumed when this happens at attempt `k`) and returns `success = false`
with `status_code = 999`. -/
theorem c6_content_policy_terminal (retries k : Nat)
    (parse : String → Option Caption) (events : Nat → ApiEvent)
    (hk : k < retries) (hterm : policyTerminal (events k) = true)
    (hcont : ∀ j, j < k → attemptContinues (events j) = true) :
    call_gemini_sync retries parse events =
      ({ success := false
         error := some ("内容政策违规被拦截: " ++ policyReason (events k))
         error_type := some "ContentPolicyViolation", status_code := some 999 },
       k + 1) := by
  unfold call_gemini_sync
  have h := call_gemini_loop_policy parse events k retries 0 none hk
    (by simpa using hterm) (by simpa using hcont)
  simpa using h

/-- C6 witness: a first-attempt prohibited-content response terminates with
status 999 after exactly one request. -/
theorem c6_content_policy_terminal_witness :
    (0 < 3 ∧ policyTerminal (policyEvents 0) = true) ∧
    call_gemini_sync 3 (fun _ => none) policyEvents =
      ({ success := false
         error := some ("内容政策违规被拦截: " ++ policyReason (policyEvents 0))
         error_type := some "ContentPolicyViolation", status_code := some 999 },
       0 + 1) :=
  ⟨⟨by decide, by decide⟩,
    c6_content_policy_terminal 3 0 (fun _ => none) policyEvents (by decide)
      (by decide) (fun j hj => absurd hj (by omega))⟩

/-- C7: an id whose stored outcome has `success = true` is never overwritten
with a failure — the worker's existing-result check returns it before any
write, the processed pre-scan reports it inside any covering range, and one
or two successive `process_batch` runs over any range leave its stored
outcome untouched. -/
theorem c7_success_never_overwritten (env : WorkerEnv) (st : Store)
    (s e i : Nat) (o : Outcome) (ho : st i = some o) (hs : o.success = true) :
    check_existing_result st i = some o ∧
    (s ≤ i → i < e → i ∈ get_processed_ids st s e) ∧
    process_batch env st s e i = some o ∧
    process_batch env (process_batch env st s e) s e i = some o := by
  refine ⟨?_, ?_, ?_, ?_⟩
  · simp [check_existing_result, ho, hs]
  · intro h1 h2
    rw [mem_get_processed_ids]
    exact ⟨h1, h2, by simp [processedAt, ho, processedFilter, hs]⟩
  · exact process_batch_preserve_success env s e ho hs
  · exact process_batch_preserve_success env s e
      (process_batch_preserve_success env s e ho hs) hs

/-- C7 witness: the preservation applied to a concrete store holding a
successful outcome at id 3, over the range `[3, 4)`. -/
theorem c7_success_never_overwritten_witness :
    (succStore 3 = some successOutcome ∧ successOutcome.success = true) ∧
    (check_existing_result succStore 3 = some successOutcome ∧
      (3 ≤ 3 → 3 < 4 → 3 ∈ get_processed_ids succStore 3 4) ∧
      process_batch noPicsEnv succStore 3 4 3 = some successOutcome ∧
      process_batch noPicsEnv (process_batch noPicsEnv succStore 3 4) 3 4 3 =
        some successOutcome) :=
  ⟨⟨by decide, by decide⟩,
    c7_success_never_overwritten noPicsEnv succStore 3 4 3 successOutcome
      (by decide) (by decide)⟩

/-- Prompt assembly never reaches the template getters' `ValueError`: the
normalised language is always `"en"` or `"zh"`. -/
theorem build_prompt_isSome (T : PromptTexts) (a c t : TagArg)
    (language : String) (ref : Option String) :
    (build_prompt T a c t language ref).isSome = true := by
  unfold build_prompt get_base_template get_notes_section
  by_cases h1 : language = "en"
  · simp [h1]
  · by_cases h2 : language = "zh"
    · simp [h1, h2]
    · simp [h1, h2]

/-- C8: `build_prompt` is pure and equals
`base(language') ++ (artists ≠ [] ? artist_section : ε) ++
(treeText given ? treeText : (characters ≠ [] ? character_section : ε)) ++
(tags ≠ [] ? tags_section : ε) ++ notes(language')`, after coercing
non-list inputs to one-element lists, treating `None` as empty, and falling
back to `"en"` for any language outside `{en, zh}`. -/
theorem c8_build_prompt_structure (T : PromptTexts) (a c t : TagArg)
    (language : String) (ref : Option String) :
    build_prompt T a c t language ref =
      some (
        (if (if language = "en" ∨ language = "zh" then language else "en") = "en"
          then T.en_base else T.zh_base) ++
        (if a.normalize ≠ [] then
          get_artist_section T a.normalize
            (if language = "en" ∨ language = "zh" then language else "en")
         else "") ++
        (match ref with
         | some r => r
         | none =>
           if c.normalize ≠ [] then
             (if (if language = "en" ∨ language = "zh" then language else "en") = "en"
               then T.en_character c.normalize else T.zh_character c.normalize)
           else "") ++
        (if t.normalize ≠ [] then
          (if (if language = "en" ∨ language = "zh" then language else "en") = "en"
            then T.en_tags t.normalize else T.zh_tags t.normalize)
         else "") ++
        (if (if language = "en" ∨ language = "zh" then language else "en") = "en"
          then T.en_notes else T.zh_notes)) := by
  have hlang : (if language = "en" ∨ language = "zh" then language else "en") = "en" ∨
      (if language = "en" ∨ language = "zh" then language else "en") = "zh" := by
    by_cases h1 : language = "en"
    · simp [h1]
    · by_cases h2 : language = "zh"
      · simp [h1, h2]
      · simp [h1, h2]
  unfold build_prompt get_base_template get_notes_section get_tags_section
    get_character_section
  rcases hlang with hl | hl <;> rw [hl] <;> simp only [if_pos rfl] <;>
    [skip; rw [if_neg (by simp)]] <;>
  · rcases ref with _ | r
    · by_cases hc : c.normalize = [] <;> by_cases ht : t.normalize = [] <;>
        simp [truthyStr, hc, ht]
    · by_cases hr : r = "" <;> by_cases hc : c.normalize = [] <;>
        by_cases ht : t.normalize = [] <;> simp [truthyStr, hc, hr, ht]

/-- C9 counterexample: for the one-element list `[5]` the list entry point
performs no processed pre-scan at all — `max_id > min_id` fails — although
the claim asserts a pre-scan over `[min, max + 1) = [5, 6)`. -/
theorem c9_single_id_skips_prescan :
    (process_id_list noPicsEnv emptyStore [5]).prescan = none := by
  decide

/-- C9 (amended): for every non-empty id list, the pre-scan over
`[min(ids), max(ids) + 1)` is performed only when `max(ids) > min(ids)`
(it is skipped when all ids are equal — in particular for a single id —
and the processed set is then empty), and the dispatched work set is
restricted to members of `ids`. -/
theorem c9_prescan_guard_and_workset (env : WorkerEnv) (st : Store)
    (ids : List Nat) (hne : ids ≠ []) :
    (process_id_list env st ids).prescan =
      (if ids.max?.getD 0 > ids.min?.getD 0
        then some (ids.min?.getD 0, ids.max?.getD 0 + 1) else none) ∧
    ∀ p ∈ (process_id_list env st ids).work, p.1 ∈ ids := by
  unfold process_id_list
  rw [if_neg (by simpa [List.isEmpty_iff] using hne)]
  constructor
  · by_cases hmm : ids.max?.getD 0 > ids.min?.getD 0 <;> simp [hmm]
  · intro p hp
    dsimp only at hp
    rw [List.mem_filterMap] at hp
    obtain ⟨i, hi, hf⟩ := hp
    repeat' split at hf
    all_goals first
      | (exact Option.noConfusion hf)
      | (injection hf with hf; subst hf; exact hi)

/-- C9 witness: the amended statement at the concrete list `[2, 5]`. -/
theorem c9_prescan_guard_witness :
    (([2, 5] : List Nat) ≠ []) ∧
    ((process_id_list noPicsEnv emptyStore [2, 5]).prescan =
      (if ([2, 5] : List Nat).max?.getD 0 > ([2, 5] : List Nat).min?.getD 0
        then some (([2, 5] : List Nat).min?.getD 0,
          ([2, 5] : List Nat).max?.getD 0 + 1) else none) ∧
     ∀ p ∈ (process_id_list noPicsEnv emptyStore [2, 5]).work, p.1 ∈ ([2, 5] : List Nat)) :=
  ⟨by decide, c9_prescan_guard_and_workset noPicsEnv emptyStore [2, 5] (by decide)⟩

/-- Helper: a key whose lookup is `none` heads no pair of the list. -/
theorem lookup_none_not_mem {β : Type} (l : List (Nat × β)) (j : Nat)
    (h : l.lookup j = none) : ∀ b, (j, b) ∉ l := by
  induction l with
  | nil => simp
  | cons p tl ih =>
    obtain ⟨k, v⟩ := p
    intro b hb
    by_cases hjk : j = k
    · subst hjk
      simp [List.lookup_cons] at h
    · have hbeq : (j == k) = false := by simpa using hjk
      rw [List.lookup_cons, hbeq] at h
      rcases List.mem_cons.mp hb with hb | hb
      · exact hjk (congrArg Prod.fst hb)
      · exact ih h b hb

/-- Helper: `_build_cache` leaves keys it never sees untouched (also across
its abort-on-validation-error behaviour). -/
theorem build_cache_apply_of_not_key (l : List (Nat × RawPicDoc))
    (c : Nat → Option PicDoc) (j : Nat) (h : ∀ raw, (j, raw) ∉ l) :
    build_cache l c j = c j := by
  induction l generalizing c with
  | nil => rfl
  | cons p tl ih =>
    obtain ⟨i, raw⟩ := p
    have hji : j ≠ i := by
      intro hji
      exact h raw (by simp [hji])
    have htl : ∀ raw', (j, raw') ∉ tl := by
      intro raw' hr'
      exact h raw' (List.mem_cons_of_mem _ hr')
    simp only [build_cache]
    cases set_status_based_on_md5 raw with
    | ok d =>
      dsimp only
      rw [ih _ htl]
      simp [hji]
    | error u => rfl

/-- C10: the keyed URL pre-scan of `check_urls_by_key` (on a fresh or
otherwise empty-at-`id` cache) holds an entry for *every* id of the shard
`[key·100000, (key+1)·100000)`; an id with no metadata record is mapped to
`(None, 404)` rather than omitted, so the orchestrator's partition into
`toProcess` and `noURL` is total over the shard. -/
theorem c10_keyed_prescan_total (db : PicsDb) (prev : Nat → Option PicDoc)
    (key id : Nat) (h1 : key * 100000 ≤ id) (h2 : id < (key + 1) * 100000) :
    (check_urls_by_key db prev key id).isSome = true ∧
    (prev id = none → db.lookup id = none →
      check_urls_by_key db prev key id = some ⟨none, 404⟩) := by
  have hcov : ∃ b ∈ batchStarts (key * 100000) ((key + 1) * 100000) 10000,
      id ∈ rangeList b (min (b + 10000) ((key + 1) * 100000)) := by
    refine ⟨key * 100000 + (id - key * 100000) / 10000 * 10000, ?_, ?_⟩
    · simp only [batchStarts, List.mem_map, List.mem_range'_1]
      refine ⟨(id - key * 100000) / 10000, ⟨?_, ?_⟩, rfl⟩ <;> omega
    · rw [mem_rangeList]
      constructor <;> omega
  simp only [check_urls_by_key]
  rw [batchedWrite_apply, if_pos hcov]
  refine ⟨rfl, ?_⟩
  intro hprev hdb
  have hcache : build_cache
      (db.filter (fun p => key * 100000 ≤ p.1 && p.1 < (key + 1) * 100000))
      (fun j => if key * 100000 ≤ j ∧ j < (key + 1) * 100000 then prev j else none)
      id = none := by
    rw [build_cache_apply_of_not_key]
    · simp [h1, h2, hprev]
    · intro raw hraw
      exact lookup_none_not_mem db id hdb raw (List.mem_filter.mp hraw).1
  rw [hcache]

/-- C10 witness: the totality applied at key 0, id 5, over an empty database
and an empty cache. -/
theorem c10_keyed_prescan_total_witness :
    (0 * 100000 ≤ 5 ∧ 5 < (0 + 1) * 100000) ∧
    check_urls_by_key [] (fun _ => none) 0 5 = some ⟨none, 404⟩ :=
  ⟨⟨by decide, by decide⟩,
    (c10_keyed_prescan_total [] (fun _ => none) 0 5 (by decide) (by decide)).2
      rfl rfl⟩

/-- Over an empty pics collection with nothing processed, a non-empty
sub-batch contributes no dispatchable pair (every id resolves to status 405)
and leaves its own id set in `url_batch_result`. -/
theorem batchPhase1Step_noPics (e : Nat)
    (stt : List (Nat × Option String) × Option (List Nat)) (b : Nat)
    (hne : rangeList b (min (b + 10000) e) ≠ []) :
    batchPhase1Step noPicsEnv [] e stt b =
      (stt.1, some (rangeList b (min (b + 10000) e))) := by
  have hfd : from_id_doc.status = 405 := by decide
  simp only [batchPhase1Step]
  have hfilt : (rangeList b (min (b + 10000) e)).filter
      (fun i => !(([] : List Nat).contains i)) = rangeList b (min (b + 10000) e) := by
    simp
  rw [hfilt, if_neg (by simpa [List.isEmpty_iff] using hne)]
  have hpairs : (rangeList b (min (b + 10000) e)).filterMap
      (fun i =>
        match check_url_by_id_batch noPicsEnv.pics (rangeList b (min (b + 10000) e)) i with
        | some d =>
          if d.status == 200 && truthyStr d.url then some (i, d.url) else none
        | none => none) = [] := by
    rw [List.filterMap_eq_nil_iff]
    intro i hi
    have hck : check_url_by_id_batch noPicsEnv.pics (rangeList b (min (b + 10000) e)) i =
        some ⟨some from_id_doc.url, from_id_doc.status⟩ := by
      simp only [check_url_by_id_batch, noPicsEnv]
      rw [if_pos hi]
      simp [get_pic_data_by_id]
    rw [hck]
    simp [hfd]
  rw [hpairs]
  simp

/-- C1 (code bug evidence): running `process_batch` over `[0, 10001)` with an
empty caption store and no metadata records, the bulk no-URL recording
writes an outcome only for id 10000 — the single id of the *last* 10,000-id
sub-batch — while id 0, whose URL resolution also failed (status 405) and
which was neither processed nor dispatched, gets **no** outcome: the
recording loop consults the `url_batch_result` variable left over from the
final sub-batch.  This violates the claim (and spec Invariant I1), which
demands an upserted `{success: false, status_code: 405, processing_time: 0}`
outcome for every such id in the range. -/
theorem c1_no_url_ids_not_all_recorded :
    get_url_by_id [] 0 = ("", 405) ∧
    process_batch noPicsEnv emptyStore 0 10001 0 = none ∧
    process_batch noPicsEnv emptyStore 0 10001 10000 =
      some { success := false, error := some "无法获取URL，状态码: 405"
             processing_time := some 0, status_code := some 405 } := by
  have hproc : get_processed_ids emptyStore 0 10001 = [] := by
    apply List.eq_nil_iff_forall_not_mem.mpr
    intro x hx
    have h3 := (mem_get_processed_ids.mp hx).2.2
    simp [processedAt, emptyStore] at h3
  have hstarts : batchStarts 0 10001 10000 = [0, 10000] := by decide
  have hph1 : batchPhase1 noPicsEnv [] 0 10001 =
      ([], some (rangeList 10000 (min (10000 + 10000) 10001))) := by
    unfold batchPhase1
    rw [hstarts]
    simp only [List.foldl_cons, List.foldl_nil]
    rw [batchPhase1Step_noPics 10001 _ 0 (by decide),
      batchPhase1Step_noPics 10001 _ 10000 (by decide)]
  have hmain : ∀ j, process_batch noPicsEnv emptyStore 0 10001 j =
      if j ∈ rangeList 0 10001 ∧
          noUrlCond noPicsEnv (some (rangeList 10000 (min (10000 + 10000) 10001)))
            [] [] j = true
        then some (upsertOutcome (emptyStore j)
          (noUrlOutcomeFor noPicsEnv
            (some (rangeList 10000 (min (10000 + 10000) 10001))) j))
        else emptyStore j := by
    intro j
    unfold process_batch
    rw [hproc, hph1]
    dsimp only
    simp only [workerFold, List.foldl_nil, List.map_nil]
    rw [batchPhase2_apply _ _ _ _ _ (rangeList_nodup 0 10001)]
  refine ⟨by decide, ?_, ?_⟩
  · rw [hmain 0, if_neg]
    · rfl
    · rintro ⟨_, hcond⟩
      exact absurd hcond (by decide)
  · rw [hmain 10000, if_pos ⟨mem_rangeList.mpr (by omega), by decide⟩]
    decide

end GeminiCaption
